import Mathlib

/-!
Verification development for `brosel` (src/brosel.py), a rule-based browser
selector.  The program loads a YAML configuration into a `Config` object
(`Config.__init__` / `Config.load_from_file`) and resolves each URL argument
through `select_and_open`, which walks the ordered rule list, matches each
rule's `url_pattern` against the current URL with `re.search` semantics,
rewrites the URL with `re.sub` when a string `url_replace` is present, and
switches the selected browser when a string `browser_id` is present.

The embedding below is a direct translation of the Python source:
* Python's `re` library (an external dependency of the source) is modelled by
  a small executable regex engine (`re_compile`, `re_search`, `re_sub`)
  faithful to Python semantics on the fragment the program's configuration
  language exercises: literal characters, backslash escapes taken literally,
  `.` (any character except newline), greedy `*` and `+`, and numbered
  capturing groups with `\N` back-references in replacement templates.
  Patterns outside this fragment (or genuinely malformed ones, such as an
  unbalanced parenthesis) fail to compile, modelling `re.error`.
* YAML scalars/collections are the inductive `Yaml`; Python subscripting with
  its `KeyError`/`TypeError` behaviour is `subscript`; uncaught Python
  exceptions are the `Except PyErr` monad.
* `webbrowser.get` is an external collaborator; it is modelled as the
  constructor of a `Browser` handle carrying the identifier it was given.
-/

/-- Abstract syntax of the modelled regular-expression fragment. -/
inductive RE where
  | eps : RE
  | chr : Char → RE
  | dot : RE
  | seq : RE → RE → RE
  | star : RE → RE
  | group : Nat → RE → RE
deriving Repr, DecidableEq

/-- Size of a regex term, used to bound matcher fuel. -/
def reSize : RE → Nat
  | .eps => 1
  | .chr _ => 1
  | .dot => 1
  | .seq a b => reSize a + reSize b + 1
  | .star a => reSize a + 1
  | .group _ a => reSize a + 1

/-- Capture environment: group number to captured characters, most recent
binding first. -/
def Caps := List (Nat × List Char)

/-- Backtracking matcher.  `reMatch fuel re s caps` returns every way `re` can
match a prefix of `s`, as `(remaining suffix, captures)` pairs, ordered by
Python's backtracking preference (greedy alternatives first).  `fuel` bounds
recursion depth; it is instantiated large enough in `matchTop`. -/
def reMatch : Nat → RE → List Char → Caps → List (List Char × Caps)
  | 0, _, _, _ => []
  | Nat.succ f, re, s, caps =>
    match re with
    | .eps => [(s, caps)]
    | .chr c =>
      match s with
      | [] => []
      | c2 :: rest => if c2 = c then [(rest, caps)] else []
    | .dot =>
      match s with
      | [] => []
      | c2 :: rest => if c2 = '\n' then [] else [(rest, caps)]
    | .seq a b =>
      (reMatch f a s caps).flatMap (fun r => reMatch f b r.1 r.2)
    | .star a =>
      (((reMatch f a s caps).filter (fun r => r.1.length < s.length)).flatMap
        (fun r => reMatch f (RE.star a) r.1 r.2)) ++ [(s, caps)]
    | .group n a =>
      (reMatch f a s caps).map
        (fun r => (r.1, (n, s.take (s.length - r.1.length)) :: r.2))

/-- All matches of `re` at the start of `s`, preference-ordered, with
sufficient fuel. -/
def matchTop (re : RE) (s : List Char) : List (List Char × Caps) :=
  reMatch ((s.length + 2) * (reSize re + 2)) re s []

/-- Model of Python pattern `.search`: does the pattern match anywhere in the
string? -/
def re_search (re : RE) : List Char → Bool
  | [] => !(matchTop re []).isEmpty
  | c :: t =>
    if (matchTop re (c :: t)).isEmpty then re_search re t else true

/-- Look up a capture group. -/
def capLookup (caps : Caps) (n : Nat) : Option (List Char) :=
  (List.find? (fun e => e.1 == n) caps).map (fun e => e.2)

/-- Expand a replacement template against a capture environment: `\N` is the
text of group `N`, `\\` a literal backslash, other characters literal. -/
def expandTemplate (tmpl : List Char) (caps : Caps) : List Char :=
  match tmpl with
  | [] => []
  | '\\' :: c :: rest =>
    if c.isDigit then
      ((capLookup caps (c.toNat - 48)).getD []) ++ expandTemplate rest caps
    else if c = '\\' then
      '\\' :: expandTemplate rest caps
    else
      '\\' :: c :: expandTemplate rest caps
  | c :: rest => c :: expandTemplate rest caps

/-- Model of Python pattern `.sub`: replace every non-overlapping match,
scanning left to right; on an empty match the replacement is emitted and one
character is copied.  Fuel decreases once per consumed character. -/
def subAllAux : Nat → RE → List Char → List Char → List Char
  | 0, _, _, s => s
  | Nat.succ f, re, tmpl, s =>
    match matchTop re s with
    | [] =>
      match s with
      | [] => []
      | c :: rest => c :: subAllAux f re tmpl rest
    | r :: _ =>
      if s.length - r.1.length == 0 then
        match s with
        | [] => expandTemplate tmpl r.2
        | c :: rest => expandTemplate tmpl r.2 ++ c :: subAllAux f re tmpl rest
      else
        expandTemplate tmpl r.2 ++ subAllAux f re tmpl r.1

/-- Model of `pattern.sub(template, s)` on strings. -/
def re_sub (re : RE) (tmpl : String) (s : String) : String :=
  String.mk (subAllAux (s.data.length + 1) re tmpl.data s.data)

/-- Postfix repetition operators after an atom: `*` and `+` are supported,
`?` is outside the modelled fragment (compilation fails on it). -/
def parseRep (a : RE) (s : List Char) : Option (RE × List Char) :=
  match s with
  | '*' :: r => some (RE.star a, r)
  | '+' :: r => some (RE.seq a (RE.star a), r)
  | '?' :: _ => none
  | _ => some (a, s)

/-- Recursive-descent parse of a sequence of atoms.  Returns the parsed term,
the unconsumed input (which for a group body starts with the closing
parenthesis), and the next capture-group number.  Fuel bounds the descent. -/
def parseSeq : Nat → List Char → Nat → Option (RE × List Char × Nat)
  | 0, _, _ => none
  | Nat.succ f, s, g =>
    match s with
    | [] => some (RE.eps, [], g)
    | ')' :: _ => some (RE.eps, s, g)
    | '(' :: rest =>
      match parseSeq f rest (g + 1) with
      | some (inner, ')' :: rest2, g2) =>
        match parseRep (RE.group g inner) rest2 with
        | some (a, rest3) =>
          match parseSeq f rest3 g2 with
          | some (b, rest4, g3) => some (RE.seq a b, rest4, g3)
          | none => none
        | none => none
      | _ => none
    | '.' :: rest =>
      match parseRep RE.dot rest with
      | some (a, rest2) =>
        match parseSeq f rest2 g with
        | some (b, rest3, g2) => some (RE.seq a b, rest3, g2)
        | none => none
      | none => none
    | '*' :: _ => none
    | '+' :: _ => none
    | '?' :: _ => none
    | '\\' :: c :: rest =>
      match parseRep (RE.chr c) rest with
      | some (a, rest2) =>
        match parseSeq f rest2 g with
        | some (b, rest3, g2) => some (RE.seq a b, rest3, g2)
        | none => none
      | none => none
    | '\\' :: [] => none
    | c :: rest =>
      match parseRep (RE.chr c) rest with
      | some (a, rest2) =>
        match parseSeq f rest2 g with
        | some (b, rest3, g2) => some (RE.seq a b, rest3, g2)
        | none => none
      | none => none

/-- Model of `re.compile`: parse the whole pattern; any leftover input (for
example a stray closing parenthesis) or unsupported construct is a
compilation failure, modelling `re.error`. -/
def re_compile (pat : String) : Option RE :=
  match parseSeq (pat.data.length + 2) pat.data 1 with
  | some (re, [], _) => some re
  | _ => none

/-- YAML values as produced by `yaml.load`, restricted to string-keyed
mappings.  `null` doubles as Python `None`, which is also what a failed or
empty parse yields. -/
inductive Yaml where
  | null : Yaml
  | str : String → Yaml
  | int : Int → Yaml
  | list : List Yaml → Yaml
  | map : List (String × Yaml) → Yaml
deriving Repr

/-- Is the value a Python string (`isinstance(x, basestring)`)? -/
def Yaml.isStr : Yaml → Bool
  | .str _ => true
  | _ => false

/-- Python exceptions that the translated code can raise. -/
inductive PyErr where
  | keyError : PyErr
  | typeError : PyErr
  | reError : PyErr
deriving Repr, DecidableEq

/-- Python subscripting `v[k]` with a string key: a mapping yields the value
or raises `KeyError`; every other value raises `TypeError`. -/
def subscript (v : Yaml) (k : String) : Except PyErr Yaml :=
  match v with
  | .map es =>
    match List.find? (fun e => e.1 == k) es with
    | some e => .ok e.2
    | none => .error .keyError
  | _ => .error .typeError

/-- Python iteration `for x in v`: lists yield their items, mappings their
keys, strings their characters; other values raise `TypeError`. -/
def iterY : Yaml → Except PyErr (List Yaml)
  | .list items => .ok items
  | .map es => .ok (es.map (fun e => Yaml.str e.1))
  | .str s => .ok (s.data.map (fun c => Yaml.str (String.mk [c])))
  | _ => .error .typeError

/-- The hard-coded fallback browser command (line 30 of the source). -/
def BROWSER_DEFAULT : String := "open -a Safari %s"

/-- One loaded rule: the dictionary `r` built in `Config.load_from_file`,
holding whichever of the three recognised keys were present, with their
values (of any YAML type — the loader performs no type check). -/
structure Rule where
  browser_id : Option Yaml
  url_pattern : Option Yaml
  url_replace : Option Yaml
deriving Repr

/-- `len(r) > 0`: at least one of the three keys was copied. -/
def Rule.nonempty (r : Rule) : Bool :=
  r.browser_id.isSome || r.url_pattern.isSome || r.url_replace.isSome

/-- The configuration object. -/
structure Config where
  browser_default : Yaml
  rules : List Rule
deriving Repr

/-- State of a `Config` right after `__init__` set the defaults, before any
file is loaded. -/
def Config.init : Config :=
  { browser_default := Yaml.str BROWSER_DEFAULT, rules := [] }

/-- One iteration of `r[k] = r_data[k]` under `except KeyError`: a missing
key is recovered (the field stays absent), a `TypeError` propagates. -/
def getField (r_data : Yaml) (k : String) : Except PyErr (Option Yaml) :=
  match subscript r_data k with
  | .ok v => .ok (some v)
  | .error .keyError => .ok none
  | .error e => .error e

/-- The per-entry loop body over the keys `browser_id`, `url_pattern`,
`url_replace` (lines 135-141 of the source). -/
def extract_rule (r_data : Yaml) : Except PyErr Rule := do
  let b ← getField r_data "browser_id"
  let p ← getField r_data "url_pattern"
  let rp ← getField r_data "url_replace"
  pure { browser_id := b, url_pattern := p, url_replace := rp }

/-- The `for r_data in rules_data` loop.  A `TypeError` escaping an entry is
caught by the outer handler of `load_from_file`, which ends the loop: the
rules appended so far are kept, the remaining entries are abandoned. -/
def load_rules : List Yaml → List Rule → List Rule
  | [], acc => acc
  | r_data :: rest, acc =>
    match extract_rule r_data with
    | .error _ => acc
    | .ok r =>
      if r.nonempty then load_rules rest (acc ++ [r])
      else load_rules rest acc

/-- `Config.load_from_file` after parsing: fit the YAML data into the config
object.  Both `try` blocks catch `(KeyError, TypeError)`; a parse failure is
represented by passing `Yaml.null` (Python `None`). -/
def Config.load_from_file (cfg : Config) (yaml_data : Yaml) : Config :=
  let bd :=
    match subscript yaml_data "basic" with
    | .ok basic =>
      match subscript basic "browser_id" with
      | .ok v => v
      | .error _ => cfg.browser_default
    | .error _ => cfg.browser_default
  let rules :=
    match subscript yaml_data "rules" with
    | .ok rules_data =>
      match iterY rules_data with
      | .ok items => load_rules items cfg.rules
      | .error _ => cfg.rules
    | .error _ => cfg.rules
  { browser_default := bd, rules := rules }

/-- A full `Config()` construction whose located file parsed to `yaml_data`. -/
def configLoad (yaml_data : Yaml) : Config :=
  Config.init.load_from_file yaml_data

/-- Handle returned by the external `webbrowser.get` collaborator, carrying
the identifier it resolved. -/
structure Browser where
  id : Yaml
deriving Repr

/-- Model of `webbrowser.get`: an external collaborator outside the core;
the core only ever hands it an identifier. -/
def webbrowser_get (v : Yaml) : Browser := ⟨v⟩

/-- The `isinstance(x, basestring)` guard applied to an optional dictionary
entry (`r.get(k)` yields `None` when `k` is absent). -/
def usableStr : Option Yaml → Option String
  | some (.str s) => some s
  | _ => none

/-- The rule loop of `select_and_open` (lines 156-167), threading the config
object through explicitly.  `re.compile` of an invalid pattern raises
`re.error`, which no handler in the function catches. -/
def runRules : List Rule → Config → Browser → String →
    Config × Except PyErr (Browser × String)
  | [], cfg, selected, url => (cfg, .ok (selected, url))
  | r :: rest, cfg, selected, url =>
    match usableStr r.url_pattern with
    | some pat =>
      match re_compile pat with
      | none => (cfg, .error .reError)
      | some p =>
        if re_search p url.data then
          let url2 :=
            match usableStr r.url_replace with
            | some t => re_sub p t url
            | none => url
          let selected2 :=
            match usableStr r.browser_id with
            | some bid => webbrowser_get (.str bid)
            | none => selected
          runRules rest cfg selected2 url2
        else runRules rest cfg selected url
    | none => runRules rest cfg selected url

/-- `select_and_open(url, cfg)`: resolve the browser and final URL for one
URL argument.  The first component is the config object after the call; the
second the outcome handed to the launcher (`open_new_tab` is external I/O and
out of core scope). -/
def select_and_open (url : String) (cfg : Config) :
    Config × Except PyErr (Browser × String) :=
  runRules cfg.rules cfg (webbrowser_get cfg.browser_default) url

/-- Specification-side lookup of a key in a mapping; `none` when the value is
not a mapping or the key is absent. -/
def getKey : Yaml → String → Option Yaml
  | .map es, k => (List.find? (fun e => e.1 == k) es).map (fun e => e.2)
  | _, _ => none

/-- Is the value a YAML mapping? -/
def Yaml.isMap : Yaml → Bool
  | .map _ => true
  | _ => false

/-- Specification-side resolution of the selected browser identifier,
following the spec's words: the `browser_id` of the last rule (in stored
order) whose pattern matches the current — possibly already rewritten — URL
and that specifies a string `browser_id`; `none` when no matching rule
specifies one.  An uncompilable pattern is treated as a non-match, as the
spec prescribes. -/
def specLastBrowser : List Rule → String → Option String
  | [], _ => none
  | r :: rest, url =>
    match usableStr r.url_pattern with
    | some pat =>
      match re_compile pat with
      | some p =>
        if re_search p url.data then
          let url2 :=
            match usableStr r.url_replace with
            | some t => re_sub p t url
            | none => url
          match specLastBrowser rest url2 with
          | some bid => some bid
          | none => usableStr r.browser_id
        else specLastBrowser rest url
      | none => specLastBrowser rest url
    | none => specLastBrowser rest url

/-- Specification-side default browser, amended to what the code does: the
value of `basic.browser_id` whenever that two-level lookup succeeds,
whatever its type; the hard-coded fallback otherwise. -/
def specDefaultBrowser (doc : Yaml) : Yaml :=
  match getKey doc "basic" with
  | some basic =>
    match getKey basic "browser_id" with
    | some v => v
    | none => Yaml.str BROWSER_DEFAULT
  | none => Yaml.str BROWSER_DEFAULT

/-- Specification-side per-entry rule extraction, amended to what the code
does: a mapping entry keeps each recognised key that is present, whatever
the type of its value; an entry in which none of the three keys is present
is dropped; a non-mapping entry produces no rule (the code aborts the whole
loop there, which the amended theorem's hypothesis excludes). -/
def toRuleSpec (y : Yaml) : Option Rule :=
  match y with
  | .map es =>
    let r : Rule :=
      { browser_id := (List.find? (fun e => e.1 == "browser_id") es).map (fun e => e.2)
        url_pattern := (List.find? (fun e => e.1 == "url_pattern") es).map (fun e => e.2)
        url_replace := (List.find? (fun e => e.1 == "url_replace") es).map (fun e => e.2) }
    if r.nonempty then some r else none
  | _ => none

/-- Does this rule have a string `url_pattern` that compiles?  (Vacuously
true when it has no usable pattern.) -/
def ruleCompilesB (r : Rule) : Bool :=
  match usableStr r.url_pattern with
  | some pat => (re_compile pat).isSome
  | none => true

/-- Does this rule's pattern match the URL?  A rule without a string
pattern, or whose pattern does not compile, matches nothing. -/
def ruleMatchesB (r : Rule) (url : String) : Bool :=
  match usableStr r.url_pattern with
  | some pat =>
    match re_compile pat with
    | some p => re_search p url.data
    | none => false
  | none => false

/-! Helper lemmas. -/

theorem usableStr_of_not_str (v : Yaml) (h : v.isStr = false) :
    usableStr (some v) = none := by
  cases v <;> simp_all [usableStr, Yaml.isStr]

theorem usableStr_str (s : String) : usableStr (some (Yaml.str s)) = some s :=
  rfl

theorem runRules_fst (rules : List Rule) :
    ∀ (cfg : Config) (b : Browser) (url : String),
      (runRules rules cfg b url).1 = cfg := by
  induction rules with
  | nil => intro cfg b url; rfl
  | cons r rest ih =>
    intro cfg b url
    simp only [runRules]
    cases hu : usableStr r.url_pattern with
    | none => exact ih cfg b url
    | some pat =>
      cases hc : re_compile pat with
      | none => simp [hc]
      | some p =>
        cases hs : re_search p url.data <;> simp [hc, hs, ih]

/-! Claim theorems. -/

/-- C1 (counterexample): the pattern `(` does not compile, and on a ruleset
containing it `select_and_open` fails with a pattern-compile error instead
of treating the rule as a non-match — refuting the claim that an invalid
pattern never causes resolution to fail. -/
theorem brosel_c1_cex :
    re_compile "(" = none
    ∧ (select_and_open "x"
        ⟨Yaml.str BROWSER_DEFAULT, [⟨none, some (Yaml.str "("), none⟩]⟩).2
        = Except.error PyErr.reError :=
  ⟨rfl, rfl⟩

/-- C1 (amended): if a reached rule's `url_pattern` is a string that does
not compile, evaluation raises the pattern-compile error immediately —
resolution fails and the remaining rules are never evaluated. -/
theorem brosel_c1_amended (r : Rule) (rest : List Rule) (cfg : Config)
    (b : Browser) (url pat : String)
    (hp : usableStr r.url_pattern = some pat) (hc : re_compile pat = none) :
    runRules (r :: rest) cfg b url = (cfg, Except.error PyErr.reError) := by
  simp [runRules, hp, hc]

/-- C1 (witness): the amended theorem applied to the one-rule ruleset whose
pattern is the uncompilable `(`. -/
theorem brosel_c1_amended_witness :
    runRules [⟨none, some (Yaml.str "("), none⟩] Config.init
        (webbrowser_get (Yaml.str "d")) "x"
      = (Config.init, Except.error PyErr.reError) :=
  brosel_c1_amended ⟨none, some (Yaml.str "("), none⟩ [] Config.init
    (webbrowser_get (Yaml.str "d")) "x" "(" rfl rfl

/-- C5 (counterexample): with `rules: [42, {browser_id: x}]` the non-mapping
first entry raises a `TypeError` that the outer handler catches, abandoning
the loop: the well-formed second entry is lost, although alone it would
load — refuting the claim that a malformed entry never prevents extraction
of the other entries. -/
theorem brosel_c5_cex :
    (configLoad (Yaml.map [("rules",
        Yaml.list [Yaml.int 42, Yaml.map [("browser_id", Yaml.str "x")]])])).rules
      = []
    ∧ (configLoad (Yaml.map [("rules",
        Yaml.list [Yaml.map [("browser_id", Yaml.str "x")]])])).rules
      = [{ browser_id := some (Yaml.str "x"), url_pattern := none,
           url_replace := none }] :=
  ⟨rfl, rfl⟩

/-- C5 (amended): loading never fails as a whole and total failure to parse
yields the built-in defaults, but rule-entry extraction is not independent:
an entry on which extraction raises (a non-mapping entry) ends the loop,
keeping only the rules appended before it. -/
theorem brosel_c5_amended :
    (∀ (r_data : Yaml) (rest : List Yaml) (acc : List Rule) (e : PyErr),
        extract_rule r_data = Except.error e →
        load_rules (r_data :: rest) acc = acc)
    ∧ Config.init.load_from_file Yaml.null = Config.init := by
  constructor
  · intro r_data rest acc e h
    simp [load_rules, h]
  · rfl

/-- C5 (witness): the amended theorem applied to the counterexample list:
the malformed entry `42` ends the loop at once. -/
theorem brosel_c5_amended_witness :
    load_rules [Yaml.int 42, Yaml.map [("browser_id", Yaml.str "x")]] [] = [] :=
  brosel_c5_amended.1 (Yaml.int 42) [Yaml.map [("browser_id", Yaml.str "x")]]
    [] PyErr.typeError rfl

/-- C9: evaluating the rule engine leaves the configuration unchanged, and
repeated resolutions against the same configuration are independent. -/
theorem brosel_c9 :
    ∀ (url : String) (cfg : Config),
      (select_and_open url cfg).1 = cfg
      ∧ ∀ (url2 : String),
          select_and_open url2 (select_and_open url cfg).1
            = select_and_open url2 cfg := by
  intro url cfg
  have h1 : (select_and_open url cfg).1 = cfg :=
    runRules_fst cfg.rules cfg (webbrowser_get cfg.browser_default) url
  exact ⟨h1, fun url2 => by rw [h1]⟩

/-- C10: a matching rule applies its two effects independently and only for
string-valued fields: a non-string `url_replace` leaves the URL unrewritten
while a string `browser_id` still switches the browser, and a non-string
`browser_id` leaves the browser unchanged while a string `url_replace`
still rewrites the URL. -/
theorem brosel_c10 :
    (∀ (rest : List Rule) (cfg : Config) (b : Browser) (url pat : String)
        (p : RE) (vr : Yaml) (bid : String),
        re_compile pat = some p → re_search p url.data = true →
        vr.isStr = false →
        runRules (⟨some (Yaml.str bid), some (Yaml.str pat), some vr⟩ :: rest)
            cfg b url
          = runRules rest cfg (webbrowser_get (Yaml.str bid)) url)
    ∧ (∀ (rest : List Rule) (cfg : Config) (b : Browser) (url pat : String)
        (p : RE) (vb : Yaml) (t : String),
        re_compile pat = some p → re_search p url.data = true →
        vb.isStr = false →
        runRules (⟨some vb, some (Yaml.str pat), some (Yaml.str t)⟩ :: rest)
            cfg b url
          = runRules rest cfg b (re_sub p t url)) := by
  constructor
  · intro rest cfg b url pat p vr bid hc hs hv
    simp [runRules, usableStr_str, hc, hs, usableStr_of_not_str vr hv]
  · intro rest cfg b url pat p vb t hc hs hv
    simp [runRules, usableStr_str, hc, hs, usableStr_of_not_str vb hv]

/-- C10 (witness): both directions applied to a one-rule ruleset on input
`"a"`, with `7` as the non-string field value. -/
theorem brosel_c10_witness :
    runRules [⟨some (Yaml.str "br"), some (Yaml.str "a"), some (Yaml.int 7)⟩]
        Config.init (webbrowser_get (Yaml.str "d")) "a"
      = runRules [] Config.init (webbrowser_get (Yaml.str "br")) "a"
    ∧ runRules [⟨some (Yaml.int 7), some (Yaml.str "a"), some (Yaml.str "b")⟩]
        Config.init (webbrowser_get (Yaml.str "d")) "a"
      = runRules [] Config.init (webbrowser_get (Yaml.str "d"))
          (re_sub (RE.seq (RE.chr 'a') RE.eps) "b" "a") :=
  ⟨brosel_c10.1 [] Config.init (webbrowser_get (Yaml.str "d")) "a" "a"
      (RE.seq (RE.chr 'a') RE.eps) (Yaml.int 7) "br" rfl rfl rfl,
   brosel_c10.2 [] Config.init (webbrowser_get (Yaml.str "d")) "a" "a"
      (RE.seq (RE.chr 'a') RE.eps) (Yaml.int 7) "b" rfl rfl rfl⟩

theorem runRules_lastBrowser (rules : List Rule) :
    ∀ (cfg : Config) (b : Browser) (url : String) (bw : Browser) (fu : String),
      (runRules rules cfg b url).2 = Except.ok (bw, fu) →
      bw.id = (specLastBrowser rules url).elim b.id Yaml.str := by
  induction rules with
  | nil =>
    intro cfg b url bw fu h
    simp only [runRules] at h
    injection h with h
    injection h with h1 h2
    simp [specLastBrowser, ← h1]
  | cons r rest ih =>
    intro cfg b url bw fu h
    simp only [runRules] at h
    simp only [specLastBrowser]
    cases hu : usableStr r.url_pattern with
    | none =>
      simp only [hu] at h
      exact ih cfg b url bw fu h
    | some pat =>
      simp only [hu] at h ⊢
      cases hc : re_compile pat with
      | none => simp [hc] at h
      | some p =>
        simp only [hc] at h ⊢
        cases hs : re_search p url.data with
        | false =>
          simp only [hs, Bool.false_eq_true, if_false] at h ⊢
          exact ih cfg b url bw fu h
        | true =>
          simp only [hs, if_true] at h ⊢
          have hrec := ih cfg
            (match usableStr r.browser_id with
             | some bid => webbrowser_get (Yaml.str bid)
             | none => b)
            (match usableStr r.url_replace with
             | some t => re_sub p t url
             | none => url) bw fu h
          cases hsl : specLastBrowser rest
              (match usableStr r.url_replace with
               | some t => re_sub p t url
               | none => url) with
          | some x =>
            rw [hsl] at hrec
            simpa using hrec
          | none =>
            rw [hsl] at hrec
            cases hb : usableStr r.browser_id with
            | some bid => rw [hb] at hrec; simpa using hrec
            | none => rw [hb] at hrec; simpa using hrec

/-- C2: on every run that completes, the resolved browser is the external
handle for the `browser_id` of the last rule (in stored order) whose pattern
matched the current URL and that specified a string `browser_id`, or for the
configured default when no matching rule specified one; in particular, with
two matching rules setting `firefox` then `chrome`, the result is `chrome`. -/
theorem brosel_c2 :
    (∀ (cfg : Config) (url : String) (bw : Browser) (fu : String),
        (select_and_open url cfg).2 = Except.ok (bw, fu) →
        bw.id = (specLastBrowser cfg.rules url).elim cfg.browser_default
          Yaml.str)
    ∧ (select_and_open "a"
        ⟨Yaml.str "safari",
         [⟨some (Yaml.str "firefox"), some (Yaml.str "a"), none⟩,
          ⟨some (Yaml.str "chrome"), some (Yaml.str "a"), none⟩]⟩).2
      = Except.ok (webbrowser_get (Yaml.str "chrome"), "a") := by
  constructor
  · intro cfg url bw fu h
    exact runRules_lastBrowser cfg.rules cfg (webbrowser_get cfg.browser_default)
      url bw fu h
  · rfl

/-- C2 (witness): the characterisation applied to the two-rule
firefox-then-chrome configuration on the URL `"a"`. -/
theorem brosel_c2_witness :
    (webbrowser_get (Yaml.str "chrome")).id
      = (specLastBrowser
          [⟨some (Yaml.str "firefox"), some (Yaml.str "a"), none⟩,
           ⟨some (Yaml.str "chrome"), some (Yaml.str "a"), none⟩] "a").elim
          (Yaml.str "safari") Yaml.str :=
  brosel_c2.1
    ⟨Yaml.str "safari",
     [⟨some (Yaml.str "firefox"), some (Yaml.str "a"), none⟩,
      ⟨some (Yaml.str "chrome"), some (Yaml.str "a"), none⟩]⟩
    "a" (webbrowser_get (Yaml.str "chrome")) "a" rfl

theorem runRules_noMatch (rules : List Rule) :
    ∀ (cfg : Config) (b : Browser) (url : String),
      (∀ r ∈ rules, ruleCompilesB r = true ∧ ruleMatchesB r url = false) →
      runRules rules cfg b url = (cfg, Except.ok (b, url)) := by
  induction rules with
  | nil => intro cfg b url h; rfl
  | cons r rest ih =>
    intro cfg b url h
    have hr := h r (List.mem_cons_self r rest)
    have hrest : ∀ x ∈ rest, ruleCompilesB x = true ∧ ruleMatchesB x url = false :=
      fun x hx => h x (List.mem_cons_of_mem r hx)
    simp only [runRules]
    cases hu : usableStr r.url_pattern with
    | none => exact ih cfg b url hrest
    | some pat =>
      have h1 := hr.1
      have h2 := hr.2
      simp only [ruleCompilesB, hu] at h1
      obtain ⟨p, hp⟩ := Option.isSome_iff_exists.mp h1
      simp only [ruleMatchesB, hu, hp] at h2
      simp only [hp, h2, Bool.false_eq_true, if_false]
      exact ih cfg b url hrest

/-- C3 (counterexample): on a ruleset whose single rule has the
uncompilable pattern `(`, no rule matches the URL `x`, and yet resolution
does not return the default browser with the unchanged URL — it raises —
refuting the claim as universally stated. -/
theorem brosel_c3_cex :
    ruleMatchesB ⟨none, some (Yaml.str "("), none⟩ "x" = false
    ∧ (select_and_open "x"
        ⟨Yaml.str BROWSER_DEFAULT, [⟨none, some (Yaml.str "("), none⟩]⟩).2
      = Except.error PyErr.reError
    ∧ (select_and_open "x"
        ⟨Yaml.str BROWSER_DEFAULT, [⟨none, some (Yaml.str "("), none⟩]⟩).2
      ≠ Except.ok (webbrowser_get (Yaml.str BROWSER_DEFAULT), "x") :=
  ⟨rfl, rfl, fun hcontra => Except.noConfusion hcontra⟩

/-- C3 (amended): if additionally every rule whose `url_pattern` is a
string compiles, and no rule's pattern matches the URL, then resolution
returns the configured default browser and the input URL unchanged — in
particular for the empty rule list. -/
theorem brosel_c3_amended (cfg : Config) (url : String)
    (h : ∀ r ∈ cfg.rules, ruleCompilesB r = true ∧ ruleMatchesB r url = false) :
    (select_and_open url cfg).2
      = Except.ok (webbrowser_get cfg.browser_default, url) := by
  have hrun := runRules_noMatch cfg.rules cfg (webbrowser_get cfg.browser_default)
    url h
  rw [select_and_open, hrun]

/-- C3 (witness): the amended theorem applied to a one-rule ruleset whose
pattern `zzz` compiles but does not match the URL `ab`. -/
theorem brosel_c3_amended_witness :
    (select_and_open "ab"
        ⟨Yaml.str "d", [⟨none, some (Yaml.str "zzz"), none⟩]⟩).2
      = Except.ok (webbrowser_get (Yaml.str "d"), "ab") :=
  brosel_c3_amended ⟨Yaml.str "d", [⟨none, some (Yaml.str "zzz"), none⟩]⟩ "ab"
    (by decide)

theorem subscript_eq_getKey (y : Yaml) (k : String) :
    subscript y k
      = (match getKey y k with
         | some v => Except.ok v
         | none =>
           Except.error (if y.isMap then PyErr.keyError else PyErr.typeError)) := by
  cases y with
  | map es => cases h : List.find? (fun e => e.1 == k) es <;>
      simp [subscript, getKey, Yaml.isMap, h]
  | null => rfl
  | str s => rfl
  | int n => rfl
  | list l => rfl

/-- C6 (counterexample): for the document `basic: {browser_id: 42}` the
loaded default browser is the integer `42`, not the hard-coded fallback —
refuting the claim that a non-string `basic.browser_id` falls back. -/
theorem brosel_c6_cex :
    (configLoad (Yaml.map [("basic", Yaml.map [("browser_id", Yaml.int 42)])])).browser_default
      = Yaml.int 42
    ∧ Yaml.int 42 ≠ Yaml.str BROWSER_DEFAULT :=
  ⟨rfl, fun hcontra => Yaml.noConfusion hcontra⟩

/-- C6 (amended): the loaded default browser equals the value of
`basic.browser_id` whenever that two-level lookup succeeds — whatever the
value's type — and equals the hard-coded fallback when the document is
unparsable, a level is not a mapping, or a key is absent. -/
theorem brosel_c6_amended (doc : Yaml) :
    (configLoad doc).browser_default = specDefaultBrowser doc := by
  simp only [configLoad, Config.load_from_file, specDefaultBrowser,
    subscript_eq_getKey]
  cases hg : getKey doc "basic" with
  | none => simp [Config.init]
  | some basic =>
    cases hg2 : getKey basic "browser_id" with
    | none => simp [hg2, Config.init]
    | some v => simp [hg2, Config.init]

theorem except_ok_bind {ε α β : Type} (a : α) (f : α → Except ε β) :
    (Except.ok a : Except ε α) >>= f = f a :=
  rfl

theorem getField_map (es : List (String × Yaml)) (k : String) :
    getField (Yaml.map es) k
      = Except.ok ((List.find? (fun e => e.1 == k) es).map (fun e => e.2)) := by
  cases h : List.find? (fun e => e.1 == k) es <;> simp [getField, subscript, h]

theorem extract_rule_map (es : List (String × Yaml)) :
    extract_rule (Yaml.map es)
      = Except.ok
          { browser_id := (List.find? (fun e => e.1 == "browser_id") es).map
              (fun e => e.2),
            url_pattern := (List.find? (fun e => e.1 == "url_pattern") es).map
              (fun e => e.2),
            url_replace := (List.find? (fun e => e.1 == "url_replace") es).map
              (fun e => e.2) } := by
  simp [extract_rule, getField_map, except_ok_bind]

/-- C7 (counterexample): for the document `rules: [{browser_id: 42}]` the
loader keeps the rule with its integer-valued `browser_id` — the non-string
field survives and the entry is not dropped, refuting the claim that a
field is kept only with the expected string type. -/
theorem brosel_c7_cex :
    (configLoad (Yaml.map [("rules",
        Yaml.list [Yaml.map [("browser_id", Yaml.int 42)]])])).rules
      = [{ browser_id := some (Yaml.int 42), url_pattern := none,
           url_replace := none }]
    ∧ (Yaml.int 42).isStr = false
    ∧ (configLoad (Yaml.map [("rules",
        Yaml.list [Yaml.map [("browser_id", Yaml.int 42)]])])).rules ≠ [] :=
  ⟨rfl, rfl, fun hcontra => List.noConfusion hcontra⟩

/-- C7 (amended): for mapping entries, each of the three recognised keys is
kept whenever it is present — regardless of its value's type; an entry in
which none of the three keys is present is dropped; the surviving rules are
appended in document order. -/
theorem brosel_c7_amended (entries : List Yaml) :
    ∀ (acc : List Rule), (∀ y ∈ entries, y.isMap = true) →
      load_rules entries acc = acc ++ entries.filterMap toRuleSpec := by
  induction entries with
  | nil => intro acc h; simp [load_rules]
  | cons y rest ih =>
    intro acc h
    have hy := h y (List.mem_cons_self y rest)
    have hrest : ∀ x ∈ rest, x.isMap = true :=
      fun x hx => h x (List.mem_cons_of_mem y hx)
    cases y with
    | null => simp [Yaml.isMap] at hy
    | str s => simp [Yaml.isMap] at hy
    | int n => simp [Yaml.isMap] at hy
    | list l => simp [Yaml.isMap] at hy
    | map es =>
      simp only [load_rules, extract_rule_map, List.filterMap_cons, toRuleSpec]
      split
      · rw [ih _ hrest]
        simp
      · rw [ih _ hrest]

/-- C7 (witness): the amended theorem applied to a single mapping entry
whose only present key holds the non-string value `42`. -/
theorem brosel_c7_amended_witness :
    load_rules [Yaml.map [("browser_id", Yaml.int 42)]] []
      = [] ++ [Yaml.map [("browser_id", Yaml.int 42)]].filterMap toRuleSpec :=
  brosel_c7_amended [Yaml.map [("browser_id", Yaml.int 42)]] [] (by decide)

/-- C8: with the single rule `{url_pattern: (.*)http:, url_replace:
\1https:}` the input `redirect:http://example.com` resolves to the default
browser with URL `redirect:https://example.com` (capture-group
back-reference substituted); and substitution replaces every occurrence of
the pattern, as `a`→`b` on `aXa` giving `bXb` shows. -/
theorem brosel_c8 :
    (select_and_open "redirect:http://example.com"
        ⟨Yaml.str BROWSER_DEFAULT,
         [⟨none, some (Yaml.str "(.*)http:"), some (Yaml.str "\\1https:")⟩]⟩).2
      = Except.ok (webbrowser_get (Yaml.str BROWSER_DEFAULT),
          "redirect:https://example.com")
    ∧ (select_and_open "aXa"
        ⟨Yaml.str BROWSER_DEFAULT,
         [⟨none, some (Yaml.str "a"), some (Yaml.str "b")⟩]⟩).2
      = Except.ok (webbrowser_get (Yaml.str BROWSER_DEFAULT), "bXb") :=
  ⟨rfl, rfl⟩

/-- C4: URL rewriting is sequential and cumulative — for a two-rule ruleset
where rule A's pattern matches the input and rule B's pattern matches the
result of A's rewrite, the final URL is B's substitution applied to A's
output. -/
theorem brosel_c4 (bd : Yaml) (pa ra pb rb url : String) (cpa cpb : RE)
    (h1 : re_compile pa = some cpa) (h2 : re_compile pb = some cpb)
    (h3 : re_search cpa url.data = true)
    (h4 : re_search cpb (re_sub cpa ra url).data = true) :
    (select_and_open url
        ⟨bd, [⟨none, some (Yaml.str pa), some (Yaml.str ra)⟩,
              ⟨none, some (Yaml.str pb), some (Yaml.str rb)⟩]⟩).2
      = Except.ok (webbrowser_get bd, re_sub cpb rb (re_sub cpa ra url)) := by
  simp [select_and_open, runRules, usableStr, h1, h2, h3, h4]

/-- C4 (witness): rules A = (`a` → `b`) and B = (`b` → `c`) on input `a`:
B's pattern does not match the original URL but does match A's output, and
the final URL is B's substitution applied to A's output. -/
theorem brosel_c4_witness :
    re_search (RE.seq (RE.chr 'b') RE.eps) "a".data = false
    ∧ (select_and_open "a"
        ⟨Yaml.str "d", [⟨none, some (Yaml.str "a"), some (Yaml.str "b")⟩,
                        ⟨none, some (Yaml.str "b"), some (Yaml.str "c")⟩]⟩).2
      = Except.ok (webbrowser_get (Yaml.str "d"),
          re_sub (RE.seq (RE.chr 'b') RE.eps) "c"
            (re_sub (RE.seq (RE.chr 'a') RE.eps) "b" "a")) :=
  ⟨rfl, brosel_c4 (Yaml.str "d") "a" "b" "b" "c" "a"
    (RE.seq (RE.chr 'a') RE.eps) (RE.seq (RE.chr 'b') RE.eps) rfl rfl rfl rfl⟩
